import Mathlib

/-!
# AutoWaterPump — verification of the watering core

A shallow embedding of the decision logic of `src/main.cpp` (and the
`SensorManager` in `src/sensors.cpp`) of the AutoWaterPump sketch, together
with proofs and refutations of the specification claims about it.

Conventions:
* Arduino `unsigned long` is 32 bits; where unsigned wrap-around matters the
  embedding computes modulo `2^32` explicitly.
* `moistureLevel` is a `float` in the source, but it is always the value of
  `calculateMoisture`, an integer in `0..100` converted to `float`; the
  comparison `moistureLevel >= 70` is therefore embedded over `Nat`.
* Interactive button loops are embedded as functions consuming a script of
  button events, one event per loop iteration.
-/

namespace AutoWaterPump

/-- Arduino's `constrain(amt, low, high)` macro:
`amt < low ? low : (amt > high ? high : amt)`. -/
def constrain (amt low high : Nat) : Nat :=
  if amt < low then low else if amt > high then high else amt

/-- `unsigned long` subtraction `a - b` (32-bit wrap-around), as in
`millis() - autoTimer` and `waterTestDuration + (direction * 1000)` with
`direction = -1`. -/
def usub32 (a b : Nat) : Nat :=
  (a + (4294967296 - b % 4294967296)) % 4294967296

/-- `unsigned long` addition `a + b` (32-bit wrap-around), as in
`waterTestDuration + (direction * 1000)` with `direction = 1`. -/
def uadd32 (a b : Nat) : Nat :=
  (a + b) % 4294967296

-- ========================================
-- Sensor conversion (`calculateMoisture`, main.cpp:1114-1121, and
-- `SensorManager::getMoisturePercentage`, sensors.cpp:43-47)
-- ========================================

/-- `DRY_VALUE` — raw ADC value for completely dry soil. -/
def DRY_VALUE : Nat := 300

/-- `WET_VALUE` — raw ADC value for completely wet soil. -/
def WET_VALUE : Nat := 880

/-- Arduino `map(x, in_min, in_max, out_min, out_max)` for the call
`map(raw, DRY_VALUE, WET_VALUE, 0, 100)` with `DRY_VALUE < raw < WET_VALUE`:
`(x - in_min) * (out_max - out_min) / (in_max - in_min) + out_min`.
All quantities involved are non-negative, so `Nat` arithmetic (truncating
division) coincides with the C `long` arithmetic. -/
def arduinoMap (x inMin inMax outMin outMax : Nat) : Nat :=
  (x - inMin) * (outMax - outMin) / (inMax - inMin) + outMin

/-- `calculateMoisture(raw)` (main.cpp:1114-1121): converts a raw ADC reading
to a moisture percentage.  Returns `0` at or below `DRY_VALUE`, `100` at or
above `WET_VALUE`, and the linear interpolation in between. -/
def calculateMoisture (raw : Nat) : Nat :=
  if raw ≤ DRY_VALUE then 0
  else if raw ≥ WET_VALUE then 100
  else arduinoMap raw DRY_VALUE WET_VALUE 0 100

/-- Arduino's `constrain` macro over `int`/`long` values. -/
def constrainInt (amt low high : Int) : Int :=
  if amt < low then low else if amt > high then high else amt

/-- The `percentage` computed by `SensorManager::getMoisturePercentage`,
i.e. `map(lastMoistureReading, DRY_VALUE, WET_VALUE, 0, 100)` over C `long`
arithmetic. -/
def sensorPercentageRaw (lastMoistureReading : Int) : Int :=
  Int.tdiv ((lastMoistureReading - 300) * (100 - 0)) (880 - 300) + 0

/-- `SensorManager::getMoisturePercentage()` (sensors.cpp:43-47):
`constrain(map(lastMoistureReading, DRY_VALUE, WET_VALUE, 0, 100), 0, 100)`.
The reading is an `int`; C `long` division truncates toward zero
(`Int.tdiv`). -/
def getMoisturePercentage (lastMoistureReading : Int) : Int :=
  constrainInt (sensorPercentageRaw lastMoistureReading) 0 100

-- ========================================
-- Safety gate (`isPlantOkayToWater`, main.cpp:1138-1164)
-- ========================================

/-- `waterDetectThreshold` — threshold for the water detection sensor. -/
def waterDetectThreshold : Nat := 350

/-- Outcome of the safety gate.  The source returns `bool`; the two deny
branches are distinguished by the message they display ("Soil already wet!"
vs "WATER DETECTED!!"). -/
inductive GateResult
  | allowed
  | deniedSoilSaturated
  | deniedWaterPresent
deriving DecidableEq, Repr

/-- `isPlantOkayToWater()` (main.cpp:1138-1164), as a function of the two
sensor readings it takes: the moisture percentage (`moistureLevel`, an
integer percentage, see module comment) and the water-detection ADC value.
Returns the gate outcome together with the level of the
`waterDetectionPower` output pin at the moment the function returns.
The source drives the pin HIGH at entry (line 1139) and drives it LOW only
on the final `return true` path (line 1162); both early `return false`
paths leave it HIGH. -/
def isPlantOkayToWater (moistureLevel waterDetectionValue : Nat) :
    GateResult × Bool :=
  -- digitalWrite(waterDetectionPower, HIGH); read waterDetectionValue, moistureLevel
  if moistureLevel ≥ 70 then (.deniedSoilSaturated, true)
  else if waterDetectionValue > waterDetectThreshold then (.deniedWaterPresent, true)
  else (.allowed, false)  -- digitalWrite(waterDetectionPower, LOW)

/-- The `bool` the source actually returns: `true` iff watering is allowed. -/
def isPlantOkayToWaterBool (moistureLevel waterDetectionValue : Nat) : Bool :=
  (isPlantOkayToWater moistureLevel waterDetectionValue).1 = GateResult.allowed

-- ========================================
-- Automatic scheduling (`autoWateringCheck`, main.cpp:691-696) and the
-- automatic duration computation (`autoWatering`, main.cpp:597-600)
-- ========================================

/-- 16-bit `unsigned int` multiplication `a * b` (wrap-around mod `2^16`).
On the sketch's Uno-class AVR target (its comments document the 10-bit
0-1023 ADC) both `unsigned int` and `int` are 16 bits, so
`waterInterval * 1000` (main.cpp:692) is computed mod 65536 before being
widened to `unsigned long` for the comparison. -/
def umul16 (a b : Nat) : Nat :=
  (a * b) % 65536

/-- `autoWateringCheck()` (main.cpp:691-696):
`if (isAutoModeEnabled && (millis() - autoTimer >= waterInterval * 1000)) {
waterPlant(); autoTimer = millis(); }`.
`now` is `millis()` at the check; `waterPlant()` performs one gated watering
attempt whose gate outcome is `(isPlantOkayToWater m w).1`; `now2` is
`millis()` sampled again after `waterPlant()` returns (so `now ≤ now2`).
The firing threshold is the 16-bit product `umul16 waterInterval 1000`,
faithful to the AVR `unsigned int` arithmetic of the source.
Returns the new `autoTimer` together with `some gateOutcome` when an attempt
ran and `none` when the (wrapped) threshold has not been reached. -/
def autoWateringCheck (isAutoModeEnabled : Bool) (autoTimer waterInterval : Nat)
    (m w : Nat) (now now2 : Nat) : Nat × Option GateResult :=
  if isAutoModeEnabled ∧ umul16 waterInterval 1000 ≤ usub32 now autoTimer then
    (now2, some (isPlantOkayToWater m w).1)
  else (autoTimer, none)

/-- `autoWaterDurationMillis = (unsigned long)(targetCups * oneCupCalibrated)`
(main.cpp:598-599).  `targetCups` moves in 0.5-cup steps, represented here in
half-cups (`cupsHalf`, so `targetCups = cupsHalf / 2`).  On the dyadic inputs
the UI produces, the `float` product `targetCups * oneCupCalibrated` is exact
and the cast to `unsigned long` truncates, giving
`cupsHalf * oneCupCalibrated / 2` in truncating `Nat` arithmetic. -/
def autoWaterDurationMillis (cupsHalf oneCupCalibrated : Nat) : Nat :=
  cupsHalf * oneCupCalibrated / 2

-- ========================================
-- Pump/valve sequencing (`waterPlant` main.cpp:667-683, the calibration
-- dispense main.cpp:978-992, `manualWatering` main.cpp:491-539)
-- ========================================

/-- `pumpValveTiming` — the fixed valve settle delay, 2000 ms. -/
def pumpValveTiming : Nat := 2000

/-- `pumpHighSetting` — full-speed pump PWM value, 255. -/
def pumpHighSetting : Nat := 255

/-- One hardware action on the pump/valve outputs:
`digitalWrite(pumpValvePin, ·)`, `analogWrite(pumpPin, ·)`, or a blocking
`delay(·)`. -/
inductive HwAction
  | valveWrite (high : Bool)
  | pumpWrite (pwm : Nat)
  | wait (ms : Nat)
deriving DecidableEq, Repr

/-- The pump/valve actions of `waterPlant()` on the gate-allowed path
(main.cpp:671-677): valve HIGH, settle, pump full, dispense for
`waterDuration`, pump off, settle, valve LOW. -/
def waterPlantActions (waterDuration : Nat) : List HwAction :=
  [.valveWrite true, .wait pumpValveTiming, .pumpWrite pumpHighSetting,
   .wait waterDuration, .pumpWrite 0, .wait pumpValveTiming, .valveWrite false]

/-- The pump/valve actions of the calibration test dispense on the
gate-allowed path (main.cpp:982-988): identical shape, running for
`waterTestDuration`. -/
def calibrationDispenseActions (waterTestDuration : Nat) : List HwAction :=
  [.valveWrite true, .wait pumpValveTiming, .pumpWrite pumpHighSetting,
   .wait waterTestDuration, .pumpWrite 0, .wait pumpValveTiming, .valveWrite false]

/-- The actions `manualWatering()` performs when the M button becomes held
and the gate allows (main.cpp:516-517): valve HIGH immediately followed by
pump full — with no settle delay in between. -/
def manualStartActions : List HwAction :=
  [.valveWrite true, .pumpWrite pumpHighSetting]

/-- The actions `manualWatering()` performs when the M button is released or
the mode is exited while watering (main.cpp:520-521 and 529-530): pump off
immediately followed by valve LOW. -/
def manualStopActions : List HwAction :=
  [.pumpWrite 0, .valveWrite false]

/-- One manual hold-release cycle. -/
def manualHoldCycle : List HwAction := manualStartActions ++ manualStopActions

/-- A manual-watering session of `n` hold-release cycles. -/
def manualSession : Nat → List HwAction
  | 0 => []
  | n + 1 => manualHoldCycle ++ manualSession n

/-- Checker state for the settle protocol: whether the valve output is high,
whether a full settle delay has elapsed since it was driven high, whether the
pump PWM is non-zero, and whether a full settle delay has elapsed since the
pump was last driven to zero. -/
structure SeqCtx where
  valveOpen : Bool
  valveSettled : Bool
  pumpOn : Bool
  pumpOffSettled : Bool
  ok : Bool
deriving DecidableEq, Repr

/-- Initial checker state: valve closed, pump off, nothing pending. -/
def initSeqCtx : SeqCtx :=
  { valveOpen := false, valveSettled := false, pumpOn := false,
    pumpOffSettled := true, ok := true }

/-- One step of the settle-protocol checker.  `ok` is cleared if the pump is
driven non-zero before the valve is open and settled, or if the valve is
driven low before the pump is off and a settle delay has passed. -/
def seqStep (c : SeqCtx) : HwAction → SeqCtx
  | .valveWrite b =>
      if b then { c with valveOpen := true, valveSettled := false }
      else { c with valveOpen := false,
                    ok := c.ok && !c.pumpOn && c.pumpOffSettled }
  | .pumpWrite p =>
      if p = 0 then { c with pumpOn := false, pumpOffSettled := false }
      else { c with pumpOn := true, ok := c.ok && c.valveOpen && c.valveSettled }
  | .wait ms =>
      if pumpValveTiming ≤ ms then
        { c with valveSettled := c.valveOpen, pumpOffSettled := true }
      else c

/-- An action list obeys the full settle protocol. -/
def checkSettleSeq (as : List HwAction) : Bool :=
  (as.foldl seqStep initSeqCtx).ok

/-- Checker state for the weaker ordering property: the pump is only driven
non-zero while the valve output is high, and the valve is only driven low
while the pump is off (no settle-delay requirement). -/
structure OrdCtx where
  valveOpen : Bool
  pumpOn : Bool
  ok : Bool
deriving DecidableEq, Repr

/-- Initial ordering-checker state. -/
def initOrdCtx : OrdCtx := { valveOpen := false, pumpOn := false, ok := true }

/-- One step of the ordering checker. -/
def ordStep (c : OrdCtx) : HwAction → OrdCtx
  | .valveWrite b =>
      if b then { c with valveOpen := true }
      else { c with valveOpen := false, ok := c.ok && !c.pumpOn }
  | .pumpWrite p =>
      if p = 0 then { c with pumpOn := false }
      else { c with pumpOn := true, ok := c.ok && c.valveOpen }
  | .wait _ => c

/-- An action list obeys the valve-before-pump / pump-off-before-valve-close
ordering. -/
def checkOrderSeq (as : List HwAction) : Bool :=
  (as.foldl ordStep initOrdCtx).ok

-- ========================================
-- Calibration flow (`waterCalibrationTest`, main.cpp:884-1038) and
-- automatic-mode setup (`autoWatering`, main.cpp:552-657)
-- ========================================

/-- A button event: one iteration of an interactive polling loop in which
exactly one of the four buttons (-), (+), (M), (A) registers a press. -/
inductive Btn
  | minus
  | plus
  | mBtn
  | aBtn
deriving DecidableEq, Repr

/-- The state `waterCalibrationTest` reads and writes: its local
`waterTestDuration` and the global `oneCupCalibrated`. -/
structure CalState where
  waterTestDuration : Nat
  oneCupCalibrated : Nat
deriving DecidableEq, Repr

/-- Control position inside `waterCalibrationTest`:
* `setDuration` — the duration-setting loops (main.cpp:890-925 and 929-962;
  both make the same state updates and differ only in display),
* `askStart` — the "Start Cal Test?" loop (main.cpp:970-1036); only (-) and
  (+) are read there,
* `askCup` — the "1 cup output?" loop (main.cpp:999-1033),
* `askRetry` — the "Retry test?" loop (main.cpp:1006-1016),
* `savedDone` — returned after saving the calibration (main.cpp:1020-1031),
* `exitedDone` — returned via `printExitCurrentMenu()` without saving. -/
inductive CalMode
  | setDuration
  | askStart
  | askCup
  | askRetry
  | savedDone
  | exitedDone
deriving DecidableEq, Repr

/-- One button event processed by `waterCalibrationTest`.  The duration
adjustments are
`waterTestDuration = constrain(waterTestDuration + direction * 1000, 1000, 60000)`
in `unsigned long` arithmetic (main.cpp:905-908 and 945-947); pressing (+)
at the `askStart` prompt runs the gated dispense (main.cpp:978-992), which
touches no calibration state; pressing (+) at the `askCup` prompt saves
`oneCupCalibrated = waterTestDuration` (main.cpp:1022).  The two terminal
modes absorb further input unchanged (the source has returned). -/
def calStep (m : CalMode) (s : CalState) (b : Btn) : CalMode × CalState :=
  match m, b with
  | .setDuration, .minus =>
      (.setDuration,
        { s with waterTestDuration :=
            constrain (usub32 s.waterTestDuration 1000) 1000 60000 })
  | .setDuration, .plus =>
      (.setDuration,
        { s with waterTestDuration :=
            constrain (uadd32 s.waterTestDuration 1000) 1000 60000 })
  | .setDuration, .mBtn => (.askStart, s)
  | .setDuration, .aBtn => (.exitedDone, s)
  | .askStart, .minus => (.exitedDone, s)
  | .askStart, .plus => (.askCup, s)
  | .askStart, _ => (.askStart, s)
  | .askCup, .minus => (.askRetry, s)
  | .askCup, .plus => (.savedDone, { s with oneCupCalibrated := s.waterTestDuration })
  | .askCup, _ => (.askCup, s)
  | .askRetry, .minus => (.exitedDone, s)
  | .askRetry, .plus => (.setDuration, s)
  | .askRetry, _ => (.askRetry, s)
  | .savedDone, _ => (.savedDone, s)
  | .exitedDone, _ => (.exitedDone, s)

/-- Run `waterCalibrationTest`'s control flow over a script of button
events. -/
def calRun : CalMode → CalState → List Btn → CalMode × CalState
  | m, s, [] => (m, s)
  | m, s, b :: rest => calRun (calStep m s b).1 (calStep m s b).2 rest

/-- `waterCalibrationTest()` (main.cpp:884-1038): starts in the
duration-setting loop with `waterTestDuration = 30000` and the current
global `oneCupCalibrated`. -/
def waterCalibrationTest (oneCup0 : Nat) (script : List Btn) :
    CalMode × CalState :=
  calRun .setDuration { waterTestDuration := 30000, oneCupCalibrated := oneCup0 } script

/-- The globals `autoWatering` reads and writes. -/
structure SysState where
  oneCupCalibrated : Nat
  isAutoModeEnabled : Bool
  autoWaterDurationMillis : Nat
  waterDuration : Nat
  waterInterval : Nat
  waterIntervalHour : Nat
  autoTimer : Nat
deriving DecidableEq, Repr

/-- Control position inside `autoWatering`'s setting loop
(main.cpp:571-645): choosing the cup count (`SET_VALUE`), choosing the
interval (`SET_FREQUENCY`), done with auto mode enabled (main.cpp:647-656),
or returned early via `printExitCurrentMenu()`. -/
inductive AWMode
  | setValue
  | setFrequency
  | enabledDone
  | exitedDone
deriving DecidableEq, Repr

/-- How `autoWatering` returned. -/
inductive AWOutcome
  | calibrationForced
  | enabled
  | exited
  | ranOut
deriving DecidableEq, Repr

/-- One button event processed by `autoWatering`'s setting loops
(main.cpp:574-645).  `k` is the local `targetCups` in half-cup units
(`targetCups = k / 2`; the source adjusts by `stepp = 0.5` under
`constrain(·, 0.5, 10.0)`, main.cpp:593, exactly `constrain (k ± 1) 1 20`
in half-cups — `Nat` truncation at `k = 1` matches the float clamp at 0.5).
Confirming the cup count computes
`autoWaterDurationMillis = (unsigned long)(targetCups * oneCupCalibrated)`
and copies it to `waterDuration` (main.cpp:597-600).  The interval moves by
`waterIntervalDelta = 60` under `constrain(·, 60, 1440)` (main.cpp:626-628)
in unsigned arithmetic — written out as `h - 60` when `60 ≤ h` and as the
32-bit wrapped value otherwise (for `h < 60` both a 16-bit and a 32-bit
wrap exceed 1440, so `constrain` clamps either to 1440).  Confirming the interval sets `waterInterval = waterIntervalHour`,
enables auto mode and starts `autoTimer` at the current `millis()`
(main.cpp:633-654). -/
def awStep (m : AWMode) (k : Nat) (s : SysState) (now : Nat) (b : Btn) :
    AWMode × Nat × SysState :=
  match m, b with
  | .setValue, .minus => (.setValue, constrain (k - 1) 1 20, s)
  | .setValue, .plus => (.setValue, constrain (k + 1) 1 20, s)
  | .setValue, .mBtn =>
      (.setFrequency, k,
        { s with autoWaterDurationMillis := autoWaterDurationMillis k s.oneCupCalibrated,
                 waterDuration := autoWaterDurationMillis k s.oneCupCalibrated })
  | .setValue, .aBtn => (.exitedDone, k, s)
  | .setFrequency, .minus =>
      (.setFrequency, k,
        { s with waterIntervalHour :=
            constrain (if 60 ≤ s.waterIntervalHour then s.waterIntervalHour - 60
                       else s.waterIntervalHour + 4294967296 - 60) 60 1440 })
  | .setFrequency, .plus =>
      (.setFrequency, k,
        { s with waterIntervalHour := constrain (s.waterIntervalHour + 60) 60 1440 })
  | .setFrequency, .mBtn =>
      (.enabledDone, k,
        { s with waterInterval := s.waterIntervalHour,
                 isAutoModeEnabled := true, autoTimer := now })
  | .setFrequency, .aBtn => (.exitedDone, k, s)
  | .enabledDone, _ => (.enabledDone, k, s)
  | .exitedDone, _ => (.exitedDone, k, s)

/-- Run `autoWatering`'s setting loops over a script of button events. -/
def awRun : AWMode → Nat → SysState → List Btn → Nat → AWMode × Nat × SysState
  | m, k, s, [], _ => (m, k, s)
  | m, k, s, b :: rest, now =>
      awRun (awStep m k s now b).1 (awStep m k s now b).2.1
        (awStep m k s now b).2.2 rest now

/-- How the final control position reports to the caller. -/
def awOutcome : AWMode → AWOutcome
  | .enabledDone => .enabled
  | .exitedDone => .exited
  | .setValue => .ranOut
  | .setFrequency => .ranOut

/-- `autoWatering()` (main.cpp:552-657).  If `oneCupCalibrated <= 0` it
displays "Calibration Needed", calls `waterCalibrationTest()` and returns —
without ever reaching the `isAutoModeEnabled = true` assignment at
main.cpp:647.  Otherwise it runs the setting loops starting at
`targetCups = 1.0` (`k = 2` half-cups). -/
def autoWatering (s : SysState) (script : List Btn) (now : Nat) :
    SysState × AWOutcome :=
  if s.oneCupCalibrated ≤ 0 then
    ({ s with oneCupCalibrated :=
        (waterCalibrationTest s.oneCupCalibrated script).2.oneCupCalibrated },
     .calibrationForced)
  else
    ((awRun .setValue 2 s script now).2.2,
     awOutcome (awRun .setValue 2 s script now).1)

-- ========================================
-- Main loop (`loop`, main.cpp:267-280; `isWaterDetected`, main.cpp:1128)
-- ========================================

/-- `isWaterDetected()` (main.cpp:1128):
`digitalRead(waterSensorPin) == HIGH`. -/
def isWaterDetected (waterSensorPinHigh : Bool) : Bool :=
  waterSensorPinHigh == true

/-- What one `loop()` iteration does. -/
inductive LoopAction
  | lowWaterWarning
  | menuCycle
  | menuDispatch (menu : Nat)
deriving DecidableEq, Repr

/-- One iteration of `loop()` (main.cpp:267-280): with no water detected it
only displays the low-water warning; otherwise with `currentMenu == 0` it
cycles the main-menu messages and polls the buttons; otherwise it dispatches
`handleMenu(currentMenu)`. -/
def loopIteration (waterSensorPinHigh : Bool) (currentMenu : Nat) : LoopAction :=
  if !isWaterDetected waterSensorPinHigh then .lowWaterWarning
  else if currentMenu = 0 then .menuCycle
  else .menuDispatch currentMenu

/-- Whether a loop action can reach a pump write (`analogWrite(pumpPin, ·)`)
anywhere in its call tree.  The warning branch and the main-menu cycle
(`showMessageCycle`/`checkButtons`, which only draw and set `currentMenu`)
cannot; `handleMenu` can for menus 1 (clock → `autoWateringCheck` →
`waterPlant`), 2 (settings → calibration dispense), 3 (`manualWatering`)
and 4 (`autoWatering` → `showClock` → `waterPlant`). -/
def canDispense : LoopAction → Bool
  | .lowWaterWarning => false
  | .menuCycle => false
  | .menuDispatch m => m = 1 || m = 2 || m = 3 || m = 4

end AutoWaterPump

namespace AutoWaterPump

/-- Unsigned 32-bit `a - b` is the usual difference when `b ≤ a < 2^32`. -/
theorem usub32_eq_sub {a b : Nat} (h1 : b ≤ a) (h2 : a < 4294967296) :
    usub32 a b = a - b := by
  unfold usub32
  omega

/-- Unsigned 32-bit `a + b` is the usual sum when it does not overflow. -/
theorem uadd32_eq_add {a b : Nat} (h : a + b < 4294967296) :
    uadd32 a b = a + b := by
  unfold uadd32
  omega

attribute [irreducible] usub32 uadd32

/-- **C2.** The safety gate evaluates its conditions in a fixed,
short-circuiting order: moisture at or above the 70% saturation threshold
denies with `SoilSaturated` regardless of the water reading; otherwise a
water-detection value above the threshold denies with `WaterAlreadyPresent`;
otherwise watering is allowed. -/
theorem gate_fixed_order_policy (m w : Nat) :
    (m ≥ 70 → (isPlantOkayToWater m w).1 = GateResult.deniedSoilSaturated) ∧
    (m < 70 → w > waterDetectThreshold →
      (isPlantOkayToWater m w).1 = GateResult.deniedWaterPresent) ∧
    (m < 70 → w ≤ waterDetectThreshold →
      (isPlantOkayToWater m w).1 = GateResult.allowed) := by
  refine ⟨fun h => ?_, fun hm hw => ?_, fun hm hw => ?_⟩
  · simp [isPlantOkayToWater, h]
  · simp [isPlantOkayToWater, Nat.not_le.mpr hm, hw]
  · simp [isPlantOkayToWater, Nat.not_le.mpr hm, Nat.not_lt.mpr hw]

/-- Witness for `gate_fixed_order_policy` at concrete inputs: saturated soil
(75%) with no water detected, dry soil (30%) with water detected (400), and
dry soil (30%) with no water (200). -/
theorem gate_fixed_order_policy_witness :
    (isPlantOkayToWater 75 0).1 = GateResult.deniedSoilSaturated ∧
    (isPlantOkayToWater 30 400).1 = GateResult.deniedWaterPresent ∧
    (isPlantOkayToWater 30 200).1 = GateResult.allowed :=
  ⟨(gate_fixed_order_policy 75 0).1 (by decide),
   (gate_fixed_order_policy 30 400).2.1 (by decide) (by decide),
   (gate_fixed_order_policy 30 200).2.2 (by decide) (by decide)⟩

/-- The interpolated branch of `calculateMoisture` never exceeds 100:
for `300 < raw < 880` the numerator is at most `579 * 100`. -/
theorem calculateMoisture_le_100 (raw : Nat) : calculateMoisture raw ≤ 100 := by
  unfold calculateMoisture arduinoMap DRY_VALUE WET_VALUE
  split_ifs with h1 h2
  · omega
  · omega
  · have hsub : raw - 300 ≤ 579 := by omega
    have hmul : (raw - 300) * (100 - 0) ≤ 579 * (100 - 0) :=
      Nat.mul_le_mul_right _ hsub
    have hdiv : (raw - 300) * (100 - 0) / (880 - 300) ≤ 579 * (100 - 0) / (880 - 300) :=
      Nat.div_le_div_right hmul
    omega

/-- `calculateMoisture` is monotone (non-decreasing) in the raw reading. -/
theorem calculateMoisture_mono {a b : Nat} (h : a ≤ b) :
    calculateMoisture a ≤ calculateMoisture b := by
  by_cases hb : b ≤ DRY_VALUE
  · have ha : a ≤ DRY_VALUE := le_trans h hb
    simp [calculateMoisture, ha, hb]
  · by_cases hb2 : b ≥ WET_VALUE
    · have : calculateMoisture b = 100 := by simp [calculateMoisture, hb2]; omega
      rw [this]; exact calculateMoisture_le_100 a
    · by_cases ha : a ≤ DRY_VALUE
      · simp [calculateMoisture, ha]
      · have ha2 : ¬ a ≥ WET_VALUE := by
          unfold WET_VALUE at hb2 ⊢; omega
        unfold calculateMoisture arduinoMap
        simp only [ha, hb, ha2, hb2, if_false]
        exact Nat.div_le_div_right (Nat.mul_le_mul_right _ (Nat.sub_le_sub_right h _))

/-- The truncating C division in `getMoisturePercentage` is nonpositive on a
nonpositive numerator and a positive denominator. -/
theorem tdiv_nonpos_of_nonpos {a b : Int} (ha : a ≤ 0) (hb : 0 ≤ b) :
    Int.tdiv a b ≤ 0 := by
  have h1 : 0 ≤ Int.tdiv (-a) b := Int.tdiv_nonneg (by omega) hb
  have h2 : Int.tdiv (-a) b = -Int.tdiv a b := Int.neg_tdiv a b
  omega

/-- `getMoisturePercentage` is monotone (non-decreasing) in the stored raw
reading. -/
theorem getMoisturePercentage_mono {a b : Int} (h : a ≤ b) :
    getMoisturePercentage a ≤ getMoisturePercentage b := by
  unfold getMoisturePercentage constrainInt sensorPercentageRaw
  by_cases ha : a - 300 ≤ 0
  · have hpa : Int.tdiv ((a - 300) * (100 - 0)) (880 - 300) ≤ 0 :=
      tdiv_nonpos_of_nonpos (by omega) (by norm_num)
    split_ifs <;> omega
  · have hnum : (a - 300) * (100 - 0) ≤ (b - 300) * (100 - 0) := by
      apply mul_le_mul_of_nonneg_right _ (by norm_num)
      omega
    have hea : Int.tdiv ((a - 300) * (100 - 0)) (880 - 300)
        = ((a - 300) * (100 - 0)) / (880 - 300) :=
      Int.tdiv_eq_ediv (by nlinarith [sq_nonneg (a - 300)]) (by norm_num)
    have heb : Int.tdiv ((b - 300) * (100 - 0)) (880 - 300)
        = ((b - 300) * (100 - 0)) / (880 - 300) :=
      Int.tdiv_eq_ediv (by nlinarith [sq_nonneg (b - 300)]) (by norm_num)
    have hdiv : ((a - 300) * (100 - 0)) / (880 - 300)
        ≤ ((b - 300) * (100 - 0)) / (880 - 300) :=
      Int.ediv_le_ediv (by norm_num) hnum
    rw [hea, heb] at *
    split_ifs <;> omega

/-- **C8.** The raw-moisture-to-percentage conversion is a monotonic linear
map clamped to `[0,100]`: raw readings at or below `DRY_VALUE = 300` map to
0%, at or above `WET_VALUE = 880` map to 100%, readings in between map to
the truncated linear interpolation `(raw - 300) * 100 / 580`, the map is
non-decreasing and bounded by 100.  The same holds for the `SensorManager`
variant `getMoisturePercentage`. -/
theorem moisture_map_monotone_clamped :
    (∀ raw, raw ≤ DRY_VALUE → calculateMoisture raw = 0) ∧
    (∀ raw, WET_VALUE ≤ raw → calculateMoisture raw = 100) ∧
    (∀ raw, DRY_VALUE < raw → raw < WET_VALUE →
      calculateMoisture raw = (raw - DRY_VALUE) * 100 / (WET_VALUE - DRY_VALUE)) ∧
    (∀ a b, a ≤ b → calculateMoisture a ≤ calculateMoisture b) ∧
    (∀ raw, calculateMoisture raw ≤ 100) ∧
    (∀ r : Int, r ≤ 300 → getMoisturePercentage r = 0) ∧
    (∀ r : Int, 880 ≤ r → getMoisturePercentage r = 100) ∧
    (∀ a b : Int, a ≤ b → getMoisturePercentage a ≤ getMoisturePercentage b) := by
  refine ⟨fun raw h => ?_, fun raw h => ?_, fun raw h1 h2 => ?_,
    fun a b h => calculateMoisture_mono h, calculateMoisture_le_100,
    fun r h => ?_, fun r h => ?_, fun a b h => getMoisturePercentage_mono h⟩
  · simp [calculateMoisture, h]
  · have : ¬ raw ≤ DRY_VALUE := by unfold DRY_VALUE WET_VALUE at *; omega
    simp [calculateMoisture, this, h]
  · have h3 : ¬ raw ≤ DRY_VALUE := by omega
    have h4 : ¬ raw ≥ WET_VALUE := by omega
    simp [calculateMoisture, h3, h4, arduinoMap]
  · have hp : Int.tdiv ((r - 300) * (100 - 0)) (880 - 300) ≤ 0 :=
      tdiv_nonpos_of_nonpos (by omega) (by norm_num)
    unfold getMoisturePercentage constrainInt sensorPercentageRaw
    split_ifs <;> omega
  · have hnum : (580 : Int) * (100 - 0) ≤ (r - 300) * (100 - 0) := by
      apply mul_le_mul_of_nonneg_right _ (by norm_num)
      omega
    have he : Int.tdiv ((r - 300) * (100 - 0)) (880 - 300)
        = ((r - 300) * (100 - 0)) / (880 - 300) :=
      Int.tdiv_eq_ediv (by nlinarith) (by norm_num)
    have hdiv : (580 : Int) * (100 - 0) / (880 - 300)
        ≤ ((r - 300) * (100 - 0)) / (880 - 300) :=
      Int.ediv_le_ediv (by norm_num) hnum
    have hval : (580 : Int) * (100 - 0) / (880 - 300) = 100 := by decide
    unfold getMoisturePercentage constrainInt sensorPercentageRaw
    rw [he]
    split_ifs <;> omega

/-- Witness for `moisture_map_monotone_clamped` at concrete readings:
raw 100 (dry) ↦ 0, raw 900 (wet) ↦ 100, raw 590 ↦ 50, monotone on
400 ≤ 500, and the `SensorManager` variant at −5 ↦ 0 and 1000 ↦ 100,
monotone on 350 ≤ 400. -/
theorem moisture_map_monotone_clamped_witness :
    calculateMoisture 100 = 0 ∧ calculateMoisture 900 = 100 ∧
    calculateMoisture 590 = (590 - DRY_VALUE) * 100 / (WET_VALUE - DRY_VALUE) ∧
    calculateMoisture 400 ≤ calculateMoisture 500 ∧
    getMoisturePercentage (-5) = 0 ∧ getMoisturePercentage 1000 = 100 ∧
    getMoisturePercentage 350 ≤ getMoisturePercentage 400 :=
  ⟨moisture_map_monotone_clamped.1 100 (by decide),
   moisture_map_monotone_clamped.2.1 900 (by decide),
   moisture_map_monotone_clamped.2.2.1 590 (by decide) (by decide),
   moisture_map_monotone_clamped.2.2.2.1 400 500 (by decide),
   moisture_map_monotone_clamped.2.2.2.2.2.1 (-5) (by decide),
   moisture_map_monotone_clamped.2.2.2.2.2.2.1 1000 (by decide),
   moisture_map_monotone_clamped.2.2.2.2.2.2.2 350 400 (by decide)⟩

/-- **C3 (code bug).** On the saturated-soil early-deny path the gate
returns with the water-detection sensor power output still HIGH: at
moisture 75% and water value 0 the source returns `false` from line 1150
without ever executing the `digitalWrite(waterDetectionPower, LOW)` at line
1162 (the same holds for the water-detected path at line 1159).  The spec
requires the power output to be LOW on every exit path. -/
theorem gate_power_left_high_on_deny :
    (isPlantOkayToWater 75 0).2 = true ∧ (isPlantOkayToWater 30 400).2 = true := by
  decide

/-- **C4 (code bug).** The periodic check does *not* wait the configured
interval before watering: the firing threshold `waterInterval * 1000` is a
16-bit `unsigned int` product on the AVR target, wrapping mod 65536, so
every UI-settable interval except the default 60 wraps (120 → 54464 ms,
180 → 48928 ms, …).  Concretely, with the interval set to 120 and
`autoTimer = 0`, the check fires at `now = 54464` ms — one gated attempt
runs and the timer resets to the post-attempt time — although only 54464 ms
< 120 · 1000 ms have elapsed, contradicting both the claim and the
function's own comment ("triggers watering when the configured interval has
elapsed").  One millisecond earlier it still waits, showing 54464 is the
effective (wrapped) threshold. -/
theorem auto_check_fires_early_16bit :
    autoWateringCheck true 0 120 75 0 54464 60000
      = (60000, some GateResult.deniedSoilSaturated) ∧
    54464 < 120 * 1000 ∧
    umul16 120 1000 = 54464 ∧
    autoWateringCheck true 0 120 75 0 54463 60000 = (0, none) := by
  have he : usub32 54464 0 = 54464 - 0 := usub32_eq_sub (by decide) (by decide)
  have he2 : usub32 54463 0 = 54463 - 0 := usub32_eq_sub (by decide) (by decide)
  refine ⟨?_, by decide, by decide, ?_⟩
  · unfold autoWateringCheck
    rw [he, if_pos ⟨rfl, by decide⟩]
    rfl
  · unfold autoWateringCheck
    rw [he2, if_neg]
    rintro ⟨-, hc⟩
    revert hc
    decide

/-- **C5 counterexample.** The automatic-duration computation applies no
clamp whatsoever: with a corrupted calibration factor of `10^8` ms/cup and
the maximal 10-cup request (`cupsHalf = 20`) it yields `10^9` ms ≈ 11.6 days
of dispensing — far beyond the 600000 ms (10 minutes) that any UI-reachable
input can produce, and beyond any "sane maximum ceiling" of a few minutes.
The claim that the duration "is clamped to an explicit sane maximum ceiling"
is therefore false of the code. -/
theorem auto_duration_unclamped :
    autoWaterDurationMillis 20 100000000 = 1000000000 ∧
    ¬ autoWaterDurationMillis 20 100000000 ≤ 600000 := by
  constructor
  · rfl
  · decide

/-- **C5 (amended).** The computed automatic watering duration equals the
target volume times the calibration factor truncated to a whole millisecond
(`cupsHalf * f / 2`), and it is linear in the target volume whenever the
factor is even — in particular for every factor the calibration UI can save,
all of which are multiples of 1000.  No clamp is applied; the duration stays
below 600000 ms only because the UI constrains the factor to at most 60000
and the request to at most 10 cups. -/
theorem auto_duration_linear_bounded (k f : Nat) (hf : f % 2 = 0) :
    autoWaterDurationMillis (2 * k) f = 2 * autoWaterDurationMillis k f ∧
    (f ≤ 60000 → k ≤ 20 → autoWaterDurationMillis k f ≤ 600000) := by
  obtain ⟨g, rfl⟩ : ∃ g, f = 2 * g := ⟨f / 2, by omega⟩
  constructor
  · unfold autoWaterDurationMillis
    have h1 : 2 * k * (2 * g) = 4 * (k * g) := by ring
    have h2 : k * (2 * g) = 2 * (k * g) := by ring
    rw [h1, h2]
    omega
  · intro hf20 hk
    unfold autoWaterDurationMillis
    have hmul : k * (2 * g) ≤ 20 * 60000 := Nat.mul_le_mul hk hf20
    omega

/-- Witness for `auto_duration_linear_bounded` at the factor 2000 ms/cup and
3 half-cups: doubling the volume doubles the duration, and the duration is
within the 600000 ms bound. -/
theorem auto_duration_linear_bounded_witness :
    autoWaterDurationMillis (2 * 3) 2000 = 2 * autoWaterDurationMillis 3 2000 ∧
    autoWaterDurationMillis 3 2000 ≤ 600000 :=
  ⟨(auto_duration_linear_bounded 3 2000 (by decide)).1,
   (auto_duration_linear_bounded 3 2000 (by decide)).2 (by decide) (by decide)⟩

/-- **C1 counterexample.** The manual-hold watering path violates the settle
protocol: `manualWatering` drives the pump PWM to full immediately after
driving the valve output high (main.cpp:516-517), with no settle delay in
between (and likewise drives the valve low immediately after stopping the
pump); a single hold-release cycle fails the settle checker.  The claim that
*every* watering path interposes a settle delay between valve and pump
transitions is therefore false of the code. -/
theorem manual_hold_violates_settle : checkSettleSeq (manualSession 1) = false := by
  decide

/-- Evaluation helper: a `wait` on a fully-engaged state is a no-op for the
settle checker. -/
theorem seqStep_wait_engaged (dur : Nat) :
    seqStep { valveOpen := true, valveSettled := true, pumpOn := true,
              pumpOffSettled := true, ok := true } (.wait dur)
      = { valveOpen := true, valveSettled := true, pumpOn := true,
          pumpOffSettled := true, ok := true } := by
  by_cases h : pumpValveTiming ≤ dur <;> simp [seqStep, h]

/-- The ordering checker passes one manual hold-release cycle and returns to
its initial state. -/
theorem ordStep_manualHoldCycle :
    List.foldl ordStep initOrdCtx manualHoldCycle = initOrdCtx := by
  decide

/-- A manual session of any number of hold-release cycles keeps the ordering
checker in its initial (accepting) state. -/
theorem manualSession_fold (n : Nat) :
    List.foldl ordStep initOrdCtx (manualSession n) = initOrdCtx := by
  induction n with
  | zero => rfl
  | succ n ih =>
      show List.foldl ordStep initOrdCtx (manualHoldCycle ++ manualSession n)
        = initOrdCtx
      rw [List.foldl_append, ordStep_manualHoldCycle, ih]

/-- **C1 (amended).** The automatic watering cycle and the calibration
dispense obey the full settle protocol for every dispense duration: the pump
PWM goes non-zero only after the valve output is high and a full
`pumpValveTiming` settle delay has elapsed, and the valve goes low only
after the pump is back at zero and another settle delay has elapsed.  The
manual-hold path does not wait out the settle delays, but it does preserve
the ordering: over any number of hold-release cycles the pump is energized
only while the valve output is high, and the valve is lowered only with the
pump off. -/
theorem pump_settle_protocol (dur n : Nat) :
    checkSettleSeq (waterPlantActions dur) = true ∧
    checkSettleSeq (calibrationDispenseActions dur) = true ∧
    checkOrderSeq (manualSession n) = true := by
  refine ⟨?_, ?_, ?_⟩
  · show (List.foldl seqStep initSeqCtx (waterPlantActions dur)).ok = true
    unfold waterPlantActions
    simp only [List.foldl_cons, List.foldl_nil]
    rw [show seqStep (seqStep (seqStep initSeqCtx (.valveWrite true))
        (.wait pumpValveTiming)) (.pumpWrite pumpHighSetting)
      = { valveOpen := true, valveSettled := true, pumpOn := true,
          pumpOffSettled := true, ok := true } from by decide]
    rw [seqStep_wait_engaged]
    decide
  · show (List.foldl seqStep initSeqCtx (calibrationDispenseActions dur)).ok = true
    unfold calibrationDispenseActions
    simp only [List.foldl_cons, List.foldl_nil]
    rw [show seqStep (seqStep (seqStep initSeqCtx (.valveWrite true))
        (.wait pumpValveTiming)) (.pumpWrite pumpHighSetting)
      = { valveOpen := true, valveSettled := true, pumpOn := true,
          pumpOffSettled := true, ok := true } from by decide]
    rw [seqStep_wait_engaged]
    decide
  · show (List.foldl ordStep initOrdCtx (manualSession n)).ok = true
    rw [manualSession_fold]
    rfl

/-- Unfolding one event of `calRun`. -/
theorem calRun_cons (m : CalMode) (s : CalState) (b : Btn) (rest : List Btn) :
    calRun m s (b :: rest) = calRun (calStep m s b).1 (calStep m s b).2 rest := rfl

/-- `oneCupCalibrated` tracking through a calibration run: it equals the
current `waterTestDuration` in the saved-and-returned mode, and is untouched
(still `c0`) in every other mode. -/
theorem calRun_factor_invariant (c0 : Nat) (script : List Btn) :
    ∀ (m : CalMode) (s : CalState),
      (m = CalMode.savedDone → s.oneCupCalibrated = s.waterTestDuration) →
      (m ≠ CalMode.savedDone → s.oneCupCalibrated = c0) →
      ((calRun m s script).1 = CalMode.savedDone →
        (calRun m s script).2.oneCupCalibrated
          = (calRun m s script).2.waterTestDuration) ∧
      ((calRun m s script).1 ≠ CalMode.savedDone →
        (calRun m s script).2.oneCupCalibrated = c0) := by
  induction script with
  | nil => exact fun m s h1 h2 => ⟨h1, h2⟩
  | cons b rest ih =>
      intro m s h1 h2
      rw [calRun_cons]
      refine ih _ _ ?_ ?_ <;> cases m <;> cases b <;> simp_all [calStep]

/-- Every step of the calibration flow keeps `waterTestDuration` in
`[1000, 60000]` and a multiple of 1000 (it starts at 30000 and every update
is `constrain(· ± 1000, 1000, 60000)`). -/
theorem calStep_duration_range (m : CalMode) (s : CalState) (b : Btn)
    (h1 : 1000 ≤ s.waterTestDuration) (h2 : s.waterTestDuration ≤ 60000)
    (h3 : s.waterTestDuration % 1000 = 0) :
    1000 ≤ (calStep m s b).2.waterTestDuration ∧
      (calStep m s b).2.waterTestDuration ≤ 60000 ∧
      (calStep m s b).2.waterTestDuration % 1000 = 0 := by
  have hu : usub32 s.waterTestDuration 1000 = s.waterTestDuration - 1000 :=
    usub32_eq_sub (by omega) (by omega)
  have hp : uadd32 s.waterTestDuration 1000 = s.waterTestDuration + 1000 :=
    uadd32_eq_add (by omega)
  cases m with
  | setDuration =>
      cases b with
      | minus =>
          simp only [calStep]
          unfold constrain
          rw [hu]
          split_ifs <;> omega
      | plus =>
          simp only [calStep]
          unfold constrain
          rw [hp]
          split_ifs <;> omega
      | mBtn => exact ⟨h1, h2, h3⟩
      | aBtn => exact ⟨h1, h2, h3⟩
  | askStart => cases b <;> exact ⟨h1, h2, h3⟩
  | askCup => cases b <;> exact ⟨h1, h2, h3⟩
  | askRetry => cases b <;> exact ⟨h1, h2, h3⟩
  | savedDone => cases b <;> exact ⟨h1, h2, h3⟩
  | exitedDone => cases b <;> exact ⟨h1, h2, h3⟩

/-- `waterTestDuration` stays in `[1000, 60000]` and a multiple of 1000
through any calibration run. -/
theorem calRun_duration_range (script : List Btn) :
    ∀ (m : CalMode) (s : CalState),
      1000 ≤ s.waterTestDuration → s.waterTestDuration ≤ 60000 →
      s.waterTestDuration % 1000 = 0 →
      1000 ≤ (calRun m s script).2.waterTestDuration ∧
        (calRun m s script).2.waterTestDuration ≤ 60000 ∧
        (calRun m s script).2.waterTestDuration % 1000 = 0 := by
  induction script with
  | nil => exact fun m s h1 h2 h3 => ⟨h1, h2, h3⟩
  | cons b rest ih =>
      intro m s h1 h2 h3
      rw [calRun_cons]
      have h := calStep_duration_range m s b h1 h2 h3
      exact ih _ _ h.1 h.2.1 h.2.2

/-- **C7.** The calibration flow stores a factor exactly when the user, at
the "1 cup output?" prompt, confirms that one cup was dispensed (the run
ends in `savedDone`): then `oneCupCalibrated` equals the test duration that
was just measured.  On every other exit path — answering no, retrying any
number of times, exiting at any prompt, or never finishing —
`oneCupCalibrated` is left unchanged. -/
theorem calibration_saves_iff_confirmed (oneCup0 : Nat) (script : List Btn) :
    ((waterCalibrationTest oneCup0 script).1 = CalMode.savedDone →
      (waterCalibrationTest oneCup0 script).2.oneCupCalibrated
        = (waterCalibrationTest oneCup0 script).2.waterTestDuration) ∧
    ((waterCalibrationTest oneCup0 script).1 ≠ CalMode.savedDone →
      (waterCalibrationTest oneCup0 script).2.oneCupCalibrated = oneCup0) := by
  unfold waterCalibrationTest
  exact calRun_factor_invariant oneCup0 script .setDuration _
    (fun h => nomatch h) (fun _ => rfl)

/-- Witness for `calibration_saves_iff_confirmed`: the script
confirm-duration, start-test, confirm-one-cup ends saved with the factor
equal to the test duration, while the script that answers "no" at the
one-cup prompt and then "no" at the retry prompt leaves the factor at its
old value 7. -/
theorem calibration_saves_iff_confirmed_witness :
    ((waterCalibrationTest 7 [Btn.mBtn, Btn.plus, Btn.plus]).2.oneCupCalibrated
      = (waterCalibrationTest 7 [Btn.mBtn, Btn.plus, Btn.plus]).2.waterTestDuration) ∧
    ((waterCalibrationTest 7
        [Btn.mBtn, Btn.plus, Btn.minus, Btn.minus]).2.oneCupCalibrated = 7) :=
  ⟨(calibration_saves_iff_confirmed 7 [Btn.mBtn, Btn.plus, Btn.plus]).1 (by decide),
   (calibration_saves_iff_confirmed 7
      [Btn.mBtn, Btn.plus, Btn.minus, Btn.minus]).2 (by decide)⟩

/-- **C6.** Entering automatic mode with a zero (unset) calibration factor
always fails: `autoWatering` shows "Calibration Needed", forces the
calibration flow and returns without touching `isAutoModeEnabled`.
Conversely, auto mode can only be enabled by a run that entered with a
positive calibration factor (or was enabled already). -/
theorem auto_mode_requires_calibration (s : SysState) (script : List Btn) (now : Nat) :
    (s.oneCupCalibrated = 0 →
      (autoWatering s script now).2 = AWOutcome.calibrationForced ∧
      (autoWatering s script now).1.isAutoModeEnabled = s.isAutoModeEnabled) ∧
    ((autoWatering s script now).1.isAutoModeEnabled = true →
      s.isAutoModeEnabled = true ∨ 0 < s.oneCupCalibrated) := by
  constructor
  · intro h
    simp [autoWatering, h]
  · intro h
    by_cases hc : s.oneCupCalibrated ≤ 0
    · left
      simpa [autoWatering, hc] using h
    · right
      omega

/-- Witness for `auto_mode_requires_calibration`: with factor 0 the call is
redirected to calibration and the auto-mode flag is unchanged. -/
theorem auto_mode_requires_calibration_witness :
    (autoWatering ⟨0, false, 0, 20000, 0, 60, 0⟩ [] 5).2 = AWOutcome.calibrationForced ∧
    (autoWatering ⟨0, false, 0, 20000, 0, 60, 0⟩ [] 5).1.isAutoModeEnabled
      = SysState.isAutoModeEnabled ⟨0, false, 0, 20000, 0, 60, 0⟩ :=
  (auto_mode_requires_calibration ⟨0, false, 0, 20000, 0, 60, 0⟩ [] 5).1 rfl

/-- The half-cup counter stays in `[1, 20]` under its `constrain`. -/
theorem constrain_1_20 (x : Nat) : 1 ≤ constrain x 1 20 ∧ constrain x 1 20 ≤ 20 := by
  unfold constrain
  split_ifs <;> omega

/-- The duration product is in `[500, 600000]` on the UI-constrained
ranges. -/
theorem duration_product_bounds {k f : Nat} (hk1 : 1 ≤ k) (hk2 : k ≤ 20)
    (hf1 : 1000 ≤ f) (hf2 : f ≤ 60000) :
    500 ≤ autoWaterDurationMillis k f ∧ autoWaterDurationMillis k f ≤ 600000 := by
  unfold autoWaterDurationMillis
  have hlo : 1 * 1000 ≤ k * f := Nat.mul_le_mul hk1 hf1
  have hhi : k * f ≤ 20 * 60000 := Nat.mul_le_mul hk2 hf2
  omega

/-- Unfolding one event of `awRun`. -/
theorem awRun_cons (m : AWMode) (k : Nat) (s : SysState) (b : Btn)
    (rest : List Btn) (now : Nat) :
    awRun m k s (b :: rest) now
      = awRun (awStep m k s now b).1 (awStep m k s now b).2.1
          (awStep m k s now b).2.2 rest now := rfl

/-- One `autoWatering` step preserves the half-cup range, leaves the
calibration factor untouched, and — whenever it moves to (or stays in) the
interval-setting or enabled position — leaves `waterDuration` in
`[500, 600000]`. -/
theorem awStep_inv (m : AWMode) (k : Nat) (s : SysState) (now : Nat) (b : Btn)
    (hk1 : 1 ≤ k) (hk2 : k ≤ 20) (hf1 : 1000 ≤ s.oneCupCalibrated)
    (hf2 : s.oneCupCalibrated ≤ 60000)
    (hinv : m = AWMode.setFrequency ∨ m = AWMode.enabledDone →
      500 ≤ s.waterDuration ∧ s.waterDuration ≤ 600000) :
    (1 ≤ (awStep m k s now b).2.1 ∧ (awStep m k s now b).2.1 ≤ 20) ∧
    (1000 ≤ (awStep m k s now b).2.2.oneCupCalibrated ∧
      (awStep m k s now b).2.2.oneCupCalibrated ≤ 60000) ∧
    ((awStep m k s now b).1 = AWMode.setFrequency ∨
        (awStep m k s now b).1 = AWMode.enabledDone →
      500 ≤ (awStep m k s now b).2.2.waterDuration ∧
        (awStep m k s now b).2.2.waterDuration ≤ 600000) := by
  have hd := duration_product_bounds hk1 hk2 hf1 hf2
  cases m with
  | setValue =>
      cases b with
      | minus =>
          exact ⟨constrain_1_20 (k - 1), ⟨hf1, hf2⟩,
            fun h => h.elim (fun h => nomatch h) (fun h => nomatch h)⟩
      | plus =>
          exact ⟨constrain_1_20 (k + 1), ⟨hf1, hf2⟩,
            fun h => h.elim (fun h => nomatch h) (fun h => nomatch h)⟩
      | mBtn => exact ⟨⟨hk1, hk2⟩, ⟨hf1, hf2⟩, fun _ => hd⟩
      | aBtn =>
          exact ⟨⟨hk1, hk2⟩, ⟨hf1, hf2⟩,
            fun h => h.elim (fun h => nomatch h) (fun h => nomatch h)⟩
  | setFrequency =>
      cases b with
      | minus => exact ⟨⟨hk1, hk2⟩, ⟨hf1, hf2⟩, fun _ => hinv (Or.inl rfl)⟩
      | plus => exact ⟨⟨hk1, hk2⟩, ⟨hf1, hf2⟩, fun _ => hinv (Or.inl rfl)⟩
      | mBtn => exact ⟨⟨hk1, hk2⟩, ⟨hf1, hf2⟩, fun _ => hinv (Or.inl rfl)⟩
      | aBtn =>
          exact ⟨⟨hk1, hk2⟩, ⟨hf1, hf2⟩,
            fun h => h.elim (fun h => nomatch h) (fun h => nomatch h)⟩
  | enabledDone =>
      cases b <;> exact ⟨⟨hk1, hk2⟩, ⟨hf1, hf2⟩, fun _ => hinv (Or.inr rfl)⟩
  | exitedDone =>
      cases b <;> exact ⟨⟨hk1, hk2⟩, ⟨hf1, hf2⟩,
        fun h => h.elim (fun h => nomatch h) (fun h => nomatch h)⟩

/-- Through the `autoWatering` setting loops, if the run ends with auto mode
enabled, the `waterDuration` it installed is in `[500, 600000]`, given a
UI-saved calibration factor and a half-cup counter in range. -/
theorem awRun_waterDuration_bounds (script : List Btn) :
    ∀ (m : AWMode) (k : Nat) (s : SysState) (now : Nat),
      1 ≤ k → k ≤ 20 → 1000 ≤ s.oneCupCalibrated → s.oneCupCalibrated ≤ 60000 →
      (m = AWMode.setFrequency ∨ m = AWMode.enabledDone →
        500 ≤ s.waterDuration ∧ s.waterDuration ≤ 600000) →
      (awRun m k s script now).1 = AWMode.enabledDone →
      500 ≤ (awRun m k s script now).2.2.waterDuration ∧
        (awRun m k s script now).2.2.waterDuration ≤ 600000 := by
  induction script with
  | nil =>
      intro m k s now _ _ _ _ hinv hout
      exact hinv (Or.inr hout)
  | cons b rest ih =>
      intro m k s now hk1 hk2 hf1 hf2 hinv hout
      rw [awRun_cons] at hout ⊢
      have h := awStep_inv m k s now b hk1 hk2 hf1 hf2 hinv
      exact ih _ _ _ _ h.1.1 h.1.2 h.2.1.1 h.2.1.2 h.2.2 hout

/-- The only control position reported as `enabled`. -/
theorem awOutcome_enabled {m : AWMode} (h : awOutcome m = AWOutcome.enabled) :
    m = AWMode.enabledDone := by
  cases m <;> first | rfl | exact nomatch h

/-- **C9.** Every automatic watering duration reachable through the UI lies
in `[500, 600000]` ms: the calibration flow keeps the test duration in
`[1000, 60000]` (a multiple of 1000), so any saved calibration factor is in
that range; the duration product for half-cups in `[1, 20]` and such a
factor is in `[500, 600000]`; and any `autoWatering` run that ends with
auto mode enabled installs a `waterDuration` in `[500, 600000]`. -/
theorem ui_duration_bounds :
    (∀ c0 script, 1000 ≤ (waterCalibrationTest c0 script).2.waterTestDuration ∧
        (waterCalibrationTest c0 script).2.waterTestDuration ≤ 60000) ∧
    (∀ c0 script, (waterCalibrationTest c0 script).1 = CalMode.savedDone →
        1000 ≤ (waterCalibrationTest c0 script).2.oneCupCalibrated ∧
        (waterCalibrationTest c0 script).2.oneCupCalibrated ≤ 60000 ∧
        (waterCalibrationTest c0 script).2.oneCupCalibrated % 1000 = 0) ∧
    (∀ k f, 1 ≤ k → k ≤ 20 → 1000 ≤ f → f ≤ 60000 →
        500 ≤ autoWaterDurationMillis k f ∧ autoWaterDurationMillis k f ≤ 600000) ∧
    (∀ (s : SysState) script now,
        1000 ≤ s.oneCupCalibrated → s.oneCupCalibrated ≤ 60000 →
        (autoWatering s script now).2 = AWOutcome.enabled →
        500 ≤ (autoWatering s script now).1.waterDuration ∧
        (autoWatering s script now).1.waterDuration ≤ 600000) := by
  have hrange : ∀ c0 script,
      1000 ≤ (waterCalibrationTest c0 script).2.waterTestDuration ∧
      (waterCalibrationTest c0 script).2.waterTestDuration ≤ 60000 ∧
      (waterCalibrationTest c0 script).2.waterTestDuration % 1000 = 0 :=
    fun c0 script => calRun_duration_range script .setDuration ⟨30000, c0⟩
      (show (1000 : Nat) ≤ 30000 by norm_num)
      (show (30000 : Nat) ≤ 60000 by norm_num)
      (show (30000 : Nat) % 1000 = 0 by norm_num)
  refine ⟨fun c0 script => ⟨(hrange c0 script).1, (hrange c0 script).2.1⟩,
    fun c0 script h => ?_, fun k f hk1 hk2 hf1 hf2 =>
      duration_product_bounds hk1 hk2 hf1 hf2, fun s script now hf1 hf2 hout => ?_⟩
  · have hfac := (calRun_factor_invariant c0 script .setDuration _
      (fun h => nomatch h) (fun _ => rfl)).1 h
    rw [show (waterCalibrationTest c0 script).2.oneCupCalibrated
        = (waterCalibrationTest c0 script).2.waterTestDuration from hfac]
    exact hrange c0 script
  · have hc : ¬ s.oneCupCalibrated ≤ 0 := by omega
    unfold autoWatering at hout ⊢
    rw [if_neg hc] at hout ⊢
    have hmode : (awRun AWMode.setValue 2 s script now).1 = AWMode.enabledDone :=
      awOutcome_enabled hout
    exact awRun_waterDuration_bounds script .setValue 2 s now
      (by decide) (by decide) hf1 hf2
      (fun h => h.elim (fun h => nomatch h) (fun h => nomatch h)) hmode

/-- Witness for `ui_duration_bounds` at concrete inputs: a saved calibration
run (confirm 30000 ms, run the test, confirm one cup), the minimal product
`1 × 1000 / 2 = 500`, and an `autoWatering` run with factor 2000 that
confirms both settings and enables auto mode with duration 2000. -/
theorem ui_duration_bounds_witness :
    (1000 ≤ (waterCalibrationTest 0 [Btn.mBtn, Btn.plus, Btn.plus]).2.oneCupCalibrated ∧
      (waterCalibrationTest 0 [Btn.mBtn, Btn.plus, Btn.plus]).2.oneCupCalibrated ≤ 60000 ∧
      (waterCalibrationTest 0 [Btn.mBtn, Btn.plus, Btn.plus]).2.oneCupCalibrated % 1000 = 0) ∧
    (500 ≤ autoWaterDurationMillis 1 1000 ∧ autoWaterDurationMillis 1 1000 ≤ 600000) ∧
    (500 ≤ (autoWatering ⟨2000, false, 0, 0, 0, 60, 0⟩ [Btn.mBtn, Btn.mBtn] 9).1.waterDuration ∧
      (autoWatering ⟨2000, false, 0, 0, 0, 60, 0⟩ [Btn.mBtn, Btn.mBtn] 9).1.waterDuration ≤ 600000) :=
  ⟨ui_duration_bounds.2.1 0 [Btn.mBtn, Btn.plus, Btn.plus] (by decide),
   ui_duration_bounds.2.2.1 1 1000 (by decide) (by decide) (by decide) (by decide),
   ui_duration_bounds.2.2.2 ⟨2000, false, 0, 0, 0, 60, 0⟩ [Btn.mBtn, Btn.mBtn] 9
     (by decide) (by decide) (by decide)⟩

/-- **C10.** Whenever the top-level water-level sensor reads no water
present, one `loop()` iteration only displays the low-water warning —
regardless of the pending menu selection — and no action that can reach a
pump write is taken: no menu handling and no watering of any kind. -/
theorem low_water_blocks_watering (menu : Nat) :
    loopIteration false menu = LoopAction.lowWaterWarning ∧
    canDispense (loopIteration false menu) = false := by
  constructor <;> rfl

end AutoWaterPump
